import Mathlib

/-!
Verification development for the ProofPay receipt / share-token subsystem.

The definitions below are a shallow embedding of the JavaScript source:

* `determineVerificationState`, `getReceiptByToken`, `verifyShareToken`,
  `createOrGetShareToken`, `voidShareToken` embed the receipt-shares helper
  module (src/unnamed/part_006);
* `createReceipt` embeds apps/api/lib/webhooks.js;
* `processSelectedItems` / `createDispute` embed the POST /api/disputes
  handler of apps/api/app.js;
* `receiptBelowThreshold` embeds the confidence gate of the GET /api/receipts
  handler of apps/api/app.js.

The database (Supabase) is modelled as an explicit `Store` of row lists; each
Supabase query or update of the source becomes a pure function on `Store`.
Timestamps are natural numbers, with the current time `now` threaded
explicitly to each call site that evaluates `new Date()`.  Nullable columns
and optional arguments are `Option`s.  A JavaScript `TypeError` (property
read on `null`) is an `Except.error`.  Row ids that the database generates
are passed in as explicit `newId` arguments.  Returned receipt payloads
(`receipt`, `receipt_items` echoes) are read-only projections of the store
and are omitted from the result records; the returned share counters and
states, which the claims are about, are kept.
-/

/-- The five verification states produced by `determineVerificationState`. -/
inductive VState where
  | VALID
  | REFUNDED
  | DISPUTED
  | EXPIRED
  | INVALID
  deriving Repr, DecidableEq

/-- A JavaScript runtime exception.  The only one reachable in the embedded
fragment is the TypeError thrown by reading a property of `null`. -/
inductive JsError where
  | typeError
  deriving Repr, DecidableEq

/-- A row of the receipt_shares table.  Column names follow the source.
The column verification_attempts is nullable in the store: the code reads it
defensively as `share.verification_attempts || 0`. -/
structure ShareRow where
  id : Nat
  receipt_id : Nat
  token : String
  status : String
  single_use : Bool
  expires_at : Option Nat
  used_at : Option Nat
  view_count : Nat
  verification_attempts : Option Nat
  verified_at : Option Nat
  verified_by : Option String
  created_at : Nat
  deriving Repr, DecidableEq

/-- A row of the receipts table (the columns the embedded code reads). -/
structure ReceiptRow where
  id : Nat
  payment_id : String
  amount : Rat
  currency : String
  source : String
  demo_expired_qr : Bool
  demo_refunded : Bool
  demo_disputed : Bool
  refunded : Bool
  confidence_score : Option Int
  confidence_label : Option String
  deriving Repr, DecidableEq

/-- A row of the receipt_items table. -/
structure ReceiptItemRow where
  id : Nat
  receipt_id : Nat
  item_name : String
  item_price : Rat
  quantity : Int
  deriving Repr, DecidableEq

/-- A row of the disputes table. -/
structure DisputeRow where
  id : Nat
  receipt_id : Nat
  status : String
  reason_code : String
  notes : Option String
  total_amount_cents : Option Int
  deriving Repr, DecidableEq

/-- A row of the dispute_items table. -/
structure DisputeItemRow where
  dispute_id : Nat
  receipt_item_id : Nat
  quantity : Int
  amount_cents : Int
  deriving Repr, DecidableEq

/-- The relational store: one list per table touched by the embedded code. -/
structure Store where
  shares : List ShareRow
  receipts : List ReceiptRow
  receipt_items : List ReceiptItemRow
  disputes : List DisputeRow
  dispute_items : List DisputeItemRow
  deriving Repr, DecidableEq

/-- JS condition `share.expires_at && new Date(share.expires_at) < new Date()`:
the expiry column is set and lies strictly in the past. -/
def isPastExpiry (expiresAt : Option Nat) (now : Nat) : Bool :=
  match expiresAt with
  | some t => t < now
  | none => false

/-- Embeds the query `from(receipt_shares).select.eq(token, token).single()`:
the token column carries a uniqueness constraint, so the first match is the
row that `.single()` returns. -/
def findShareByToken (st : Store) (token : String) : Option ShareRow :=
  st.shares.find? (fun s => s.token == token)

/-- Embeds the query `from(receipts).select.eq(id, rid).single()`. -/
def findReceiptById (st : Store) (rid : Nat) : Option ReceiptRow :=
  st.receipts.find? (fun r => r.id == rid)

/-- Embeds the query `from(disputes).select.eq(receipt_id, rid)
.in(status, [submitted, in_review])`. -/
def activeDisputesFor (st : Store) (rid : Nat) : List DisputeRow :=
  st.disputes.filter
    (fun d => d.receipt_id == rid && (d.status == "submitted" || d.status == "in_review"))

/-- Embeds `from(receipt_shares).update(...).eq(id, sid)`: the update is
applied to every share row whose id matches. -/
def updateShareById (st : Store) (sid : Nat) (f : ShareRow → ShareRow) : Store :=
  { st with shares := st.shares.map (fun s => if s.id == sid then f s else s) }

/-- JS `activeDisputes.some(d => d.status === submitted || d.status === in_review)`. -/
def hasActiveDispute (activeDisputes : List DisputeRow) : Bool :=
  activeDisputes.any (fun d => d.status == "submitted" || d.status == "in_review")

/-- Embeds `determineVerificationState(share, receipt, activeDisputes)` of the
receipt-shares helper.

The source reads `share.expires_at` on its first line, so a null share throws
a TypeError there — before the line `share.status === voided || !share` whose
second disjunct is therefore unreachable (on a non-null share it is false; it
is kept below as `share.isNone`).  The nested demo-flag checks guarded by
`receipt.source === simulated` are flattened into guarded branches with the
fall-through order preserved. -/
def determineVerificationState (share : Option ShareRow) (receipt : Option ReceiptRow)
    (activeDisputes : List DisputeRow) (now : Nat) : Except JsError VState :=
  match share with
  | none => Except.error JsError.typeError
  | some s => Except.ok
      (if isPastExpiry s.expires_at now then VState.EXPIRED
       else if s.status == "voided" || share.isNone then VState.INVALID
       else if s.single_use && s.used_at.isSome then VState.INVALID
       else
         match receipt with
         | none => VState.INVALID
         | some r =>
           if r.source == "simulated" && r.demo_expired_qr then VState.EXPIRED
           else if r.source == "simulated" && r.demo_refunded then VState.REFUNDED
           else if r.source == "simulated" && r.demo_disputed then VState.DISPUTED
           else if r.refunded then VState.REFUNDED
           else if hasActiveDispute activeDisputes then VState.DISPUTED
           else VState.VALID)

/-- The value `determineVerificationState` returns on a non-null share, on
which it never throws.  Callers inside the helper always pass the share they
just fetched, i.e. a non-null one, so the error branch below is unreachable
there (`determineVerificationState_some` states the exact correspondence). -/
def resolveState (s : ShareRow) (receipt : Option ReceiptRow)
    (activeDisputes : List DisputeRow) (now : Nat) : VState :=
  match determineVerificationState (some s) receipt activeDisputes now with
  | Except.ok v => v
  | Except.error _ => VState.INVALID

/-- The share counters echoed back by `getReceiptByToken`. -/
structure ShareView where
  view_count : Nat
  status : String
  verification_attempts : Nat
  verified_at : Option Nat
  verified_by : Option String
  deriving Repr, DecidableEq

/-- Result of `getReceiptByToken` (receipt payload omitted, see header). -/
structure TokenResult where
  verification_state : VState
  reason : Option String
  share : Option ShareView
  deriving Repr, DecidableEq

/-- Embeds `getReceiptByToken(token)` of the receipt-shares helper:
fetch the share by token (INVALID if absent), fetch the owning receipt
(INVALID if absent), fetch active disputes, resolve the state, lazily mark an
EXPIRED share as expired, then persist the counter increments — together
with `used_at` when a valid single-use token is being consumed — in one
update keyed by the share id. -/
def getReceiptByToken (now : Nat) (token : String) (st : Store) : Store × TokenResult :=
  match findShareByToken st token with
  | none => (st, { verification_state := VState.INVALID,
                   reason := some "Token not found", share := none })
  | some share =>
    match findReceiptById st share.receipt_id with
    | none => (st, { verification_state := VState.INVALID,
                     reason := some "Receipt not found", share := none })
    | some receipt =>
      let disputes := activeDisputesFor st receipt.id
      let vstate := resolveState share (some receipt) disputes now
      let st1 :=
        if vstate == VState.EXPIRED && share.status != "expired" then
          updateShareById st share.id (fun s => { s with status := "expired" })
        else st
      let st2 := updateShareById st1 share.id (fun s =>
        { s with
          view_count := share.view_count + 1,
          verification_attempts := some (share.verification_attempts.getD 0 + 1),
          used_at :=
            if share.single_use && vstate == VState.VALID && share.used_at.isNone
            then some now else s.used_at })
      (st2, { verification_state := vstate,
              reason := none,
              share := some
                { view_count := share.view_count + 1,
                  status := share.status,
                  verification_attempts := share.verification_attempts.getD 0 + 1,
                  verified_at := share.verified_at,
                  verified_by := share.verified_by } })

/-- Result of `verifyShareToken` (receipt payload omitted, see header). -/
structure VerifyResult where
  valid : Bool
  verification_state : Option VState
  reason : Option String
  status : Option String
  deriving Repr, DecidableEq

/-- The human-readable reason `verifyShareToken` attaches to a non-VALID
resolver outcome. -/
def verifyFailReason : VState → String
  | VState.EXPIRED => "Token expired"
  | VState.REFUNDED => "Receipt has been refunded"
  | VState.DISPUTED => "Receipt is under dispute"
  | _ => "Token invalid"

/-- Embeds `verifyShareToken(token, {merchantId, markAsUsed})` of the
receipt-shares helper (merchant verification).  Early `valid: false` exits:
token not found; expired (with the one-time lazy status transition); voided;
already used (only when `markAsUsed`); receipt not found; resolver state not
VALID.  On success it increments verification_attempts and applies the
active → verified (and optionally → used) status transition, recording
verified_at / verified_by exactly as the source builds its updateData. -/
def verifyShareToken (now : Nat) (token : String) (merchantId : Option String)
    (markAsUsed : Bool) (st : Store) : Store × VerifyResult :=
  match findShareByToken st token with
  | none => (st, { valid := false, verification_state := none,
                   reason := some "Token not found", status := none })
  | some share =>
    if isPastExpiry share.expires_at now then
      let st1 :=
        if share.status != "expired" then
          updateShareById st share.id (fun s => { s with status := "expired" })
        else st
      (st1, { valid := false, verification_state := none,
              reason := some "Token expired", status := some "expired" })
    else if share.status == "voided" then
      (st, { valid := false, verification_state := none,
             reason := some "Token voided", status := some "voided" })
    else if markAsUsed && share.status == "used" then
      (st, { valid := false, verification_state := none,
             reason := some "Token already used", status := some "used" })
    else
      match findReceiptById st share.receipt_id with
      | none => (st, { valid := false, verification_state := none,
                       reason := some "Receipt not found", status := none })
      | some receipt =>
        let disputes := activeDisputesFor st receipt.id
        let vstate := resolveState share (some receipt) disputes now
        if vstate != VState.VALID then
          (st, { valid := false, verification_state := some vstate,
                 reason := some (verifyFailReason vstate), status := none })
        else
          let statusUpd : Option String :=
            if markAsUsed then some "used"
            else if share.status == "active" then some "verified"
            else none
          let verifiedAtUpd : Option Nat :=
            if share.status == "active" then some now
            else if markAsUsed then some now
            else none
          let verifiedByUpd : Option String :=
            if share.status == "active" && merchantId.isSome then merchantId
            else if markAsUsed && merchantId.isSome then merchantId
            else none
          let st2 := updateShareById st share.id (fun s =>
            { s with
              verification_attempts := some (share.verification_attempts.getD 0 + 1),
              status := statusUpd.getD s.status,
              verified_at := match verifiedAtUpd with
                | some t => some t
                | none => s.verified_at,
              verified_by := match verifiedByUpd with
                | some m => some m
                | none => s.verified_by })
          (st2, { valid := true, verification_state := some vstate,
                  reason := none, status := some (statusUpd.getD share.status) })

/-- Embeds `voidShareToken(token)`: set status to voided on every row whose
token matches, unconditionally; returns true (success). -/
def voidShareToken (token : String) (st : Store) : Store × Bool :=
  let voided := st.shares.map
    (fun s => if s.token == token then { s with status := "voided" } else s)
  ({ st with shares := voided }, true)

/-- JS `baseUrl/verify/token` assembled by `getVerifyUrl`. -/
def getVerifyUrl (baseUrl token : String) : String :=
  baseUrl ++ "/verify/" ++ token

/-- The accumulator step of the query `order(created_at, descending).limit(1)`
over the filtered rows: keep the row with the larger created_at, first row
winning ties (store order decides ties, modelled as first-wins). -/
def pickLatest (best : Option ShareRow) (s : ShareRow) : Option ShareRow :=
  match best with
  | none => some s
  | some b => if b.created_at < s.created_at then some s else some b

/-- Embeds the lookup of `createOrGetShareToken`:
`from(receipt_shares).select.eq(receipt_id, rid).is(expires_at, null)
.order(created_at, descending).limit(1).maybeSingle()`.  Note the query does
not filter on status. -/
def latestNonExpiringL (shares : List ShareRow) (receiptId : Nat) : Option ShareRow :=
  (shares.filter (fun s => s.receipt_id == receiptId && s.expires_at.isNone)).foldl
    pickLatest none

/-- Store-level wrapper of `latestNonExpiringL`. -/
def latestNonExpiring (st : Store) (receiptId : Nat) : Option ShareRow :=
  latestNonExpiringL st.shares receiptId

/-- Embeds the bounded token-generation loop of `createOrGetShareToken`
(maxAttempts = 5): the candidate stream stands for successive
`generateShareToken(16)` outputs; a candidate already present in the store is
a collision and the loop retries. -/
def pickFreshToken (st : Store) : List String → Option String
  | [] => none
  | c :: rest =>
    if st.shares.any (fun s => s.token == c) then pickFreshToken st rest
    else some c

/-- Failures of `createOrGetShareToken` (the generation bound being hit). -/
inductive CreateErr where
  | tokenGenerationExhausted
  deriving Repr, DecidableEq

/-- What `createOrGetShareToken` returns to its caller. -/
structure ShareTokenResult where
  id : Nat
  token : String
  verifyUrl : String
  created_at : Nat
  expires_at : Option Nat
  deriving Repr, DecidableEq

/-- Embeds `createOrGetShareToken(receiptId, {expiresAt, singleUse})`.
If a share for the receipt with a null expires_at exists, the most recently
created one is returned unchanged (no status filter).  Otherwise up to five
candidate tokens are tried against the uniqueness check, single_use is the
caller value or the configured default (`qrSingleUseDefault` stands for the
external isQRSingleUseEnabled read, itself defaulting to false), and a fresh
row is inserted with status active and view_count 0. -/
def createOrGetShareToken (now newId : Nat) (baseUrl : String) (candidates : List String)
    (qrSingleUseDefault : Bool) (receiptId : Nat) (expiresAt : Option Nat)
    (singleUse : Option Bool) (st : Store) : Except CreateErr (Store × ShareTokenResult) :=
  match latestNonExpiring st receiptId with
  | some existing =>
    Except.ok (st,
      { id := existing.id, token := existing.token,
        verifyUrl := getVerifyUrl baseUrl existing.token,
        created_at := existing.created_at, expires_at := existing.expires_at })
  | none =>
    match pickFreshToken st (candidates.take 5) with
    | none => Except.error CreateErr.tokenGenerationExhausted
    | some tok =>
      let singleUseValue := singleUse.getD qrSingleUseDefault
      let row : ShareRow :=
        { id := newId, receipt_id := receiptId, token := tok, status := "active",
          single_use := singleUseValue, expires_at := expiresAt, used_at := none,
          view_count := 0, verification_attempts := none, verified_at := none,
          verified_by := none, created_at := now }
      Except.ok ({ st with shares := st.shares ++ [row] },
        { id := newId, token := tok, verifyUrl := getVerifyUrl baseUrl tok,
          created_at := now, expires_at := expiresAt })

/-- JS `convertCentsToDecimal`: `if (!amountCents) return 0` (null, undefined
and 0 are all falsy), else divide by 100. -/
def jsConvertCentsToDecimal (amountCents : Option Int) : Rat :=
  match amountCents with
  | none => 0
  | some c => if c == 0 then 0 else (c : Rat) / 100

/-- The slice of a Square payment object that `createReceipt` reads. -/
structure PaymentObj where
  id : String
  amount_cents : Option Int
  currency : Option String
  deriving Repr, DecidableEq

/-- Embeds `createReceipt(payment)` of webhooks.js.  The insert is keyed by
the unique payment_id column; a duplicate insert fails with Postgres error
23505, which the code treats as success by fetching and returning the
pre-existing row with `.single()` (exactly one row expected).  Columns not
named in the insert take their schema defaults. -/
def createReceipt (newId : Nat) (payment : PaymentObj) (st : Store) :
    Except String (Store × ReceiptRow) :=
  let amount := jsConvertCentsToDecimal payment.amount_cents
  let currency := payment.currency.getD "USD"
  if st.receipts.any (fun r => r.payment_id == payment.id) then
    match st.receipts.filter (fun r => r.payment_id == payment.id) with
    | [existing] => Except.ok (st, existing)
    | _ => Except.error "single row expected"
  else
    let row : ReceiptRow :=
      { id := newId, payment_id := payment.id, amount := amount, currency := currency,
        source := "webhook", demo_expired_qr := false, demo_refunded := false,
        demo_disputed := false, refunded := false, confidence_score := none,
        confidence_label := none }
    Except.ok ({ st with receipts := st.receipts ++ [row] }, row)

/-- Errors surfaced by the POST /api/disputes handler. -/
inductive DisputeErr where
  | validationError (msg : String)
  | notFound
  deriving Repr, DecidableEq

/-- One entry of the selected_items request array. -/
structure SelectedItem where
  receipt_item_id : Option Nat
  quantity : Option Int
  deriving Repr, DecidableEq

/-- JS `selectedItem.quantity || receiptItem.quantity`: the receipt quantity
is used when the caller value is absent — or 0, since 0 is falsy. -/
def jsQuantityOr (q : Option Int) (d : Int) : Int :=
  match q with
  | none => d
  | some v => if v == 0 then d else v

/-- JS `Math.round`: round half towards positive infinity. -/
def jsRound (x : Rat) : Int := ⌊x + 1/2⌋

/-- Embeds the validation loop of the POST /api/disputes handler: each
selected item must name a receipt_item_id that belongs to the receipt; the
quantity resolves via `jsQuantityOr` and must be positive; the item amount is
`Math.round(parseFloat(item_price) * 100) * quantity`, accumulated into the
disputed total.  The dispute id is attached here rather than in a later map,
matching what the handler persists. -/
def processSelectedItems (receiptItems : List ReceiptItemRow) (disputeId : Nat) :
    List SelectedItem → Int → List DisputeItemRow →
    Except DisputeErr (Int × List DisputeItemRow)
  | [], total, acc => Except.ok (total, acc)
  | sel :: rest, total, acc =>
    match sel.receipt_item_id with
    | none => Except.error
        (DisputeErr.validationError "Each selected item must have a receipt_item_id")
    | some riid =>
      match receiptItems.find? (fun it => it.id == riid) with
      | none => Except.error
          (DisputeErr.validationError "Receipt item not found in receipt")
      | some item =>
        let quantity := jsQuantityOr sel.quantity item.quantity
        if quantity ≤ 0 then
          Except.error (DisputeErr.validationError "Quantity must be greater than 0")
        else
          let itemPriceCents := jsRound (item.item_price * 100)
          let itemDisputedCents := itemPriceCents * quantity
          processSelectedItems receiptItems disputeId rest (total + itemDisputedCents)
            (acc ++ [{ dispute_id := disputeId, receipt_item_id := riid,
                       quantity := quantity, amount_cents := itemDisputedCents }])

/-- Embeds the POST /api/disputes handler (the schema-present path: the
fallback retry without total_amount_cents is a store-capability degradation,
not a business rule, and the transport-level presence checks on receipt_id /
reason_code are typed away here).  Validates that selected_items is
non-empty and the receipt exists, processes the selected items, then inserts
the dispute (status submitted, with the disputed total) and its dispute
items. -/
def createDispute (newDisputeId : Nat) (receiptId : Nat) (selected : List SelectedItem)
    (reasonCode : String) (notes : Option String) (st : Store) :
    Store × Except DisputeErr (Nat × String) :=
  if selected.isEmpty then
    (st, Except.error (DisputeErr.validationError
      "selected_items is required and must contain at least one item"))
  else
    match st.receipts.find? (fun r => r.id == receiptId) with
    | none => (st, Except.error DisputeErr.notFound)
    | some _ =>
      let receiptItems := st.receipt_items.filter (fun it => it.receipt_id == receiptId)
      match processSelectedItems receiptItems newDisputeId selected 0 [] with
      | Except.error e => (st, Except.error e)
      | Except.ok (disputedTotalCents, validSelectedItems) =>
        let dispute : DisputeRow :=
          { id := newDisputeId, receipt_id := receiptId, status := "submitted",
            reason_code := reasonCode, notes := notes,
            total_amount_cents := some disputedTotalCents }
        ({ st with disputes := st.disputes ++ [dispute],
                   dispute_items := st.dispute_items ++ validSelectedItems },
         Except.ok (newDisputeId, "submitted"))

/-- The confidence gate of the GET /api/receipts handler (app.js):
below_threshold is false for HIGH-label receipts, and otherwise true exactly
when confidence_score is non-null and strictly below the threshold. -/
def receiptBelowThreshold (r : ReceiptRow) (threshold : Int) : Bool :=
  if r.confidence_label == some "HIGH" then false
  else
    match r.confidence_score with
    | none => false
    | some sc => sc < threshold

/-- Visibility of item detail: the handler hides receipt_items exactly when
below_threshold is true. -/
def receiptVisible (r : ReceiptRow) (threshold : Int) : Bool :=
  !(receiptBelowThreshold r threshold)

/-- Modelled from the claim words of C6 (refinement comparison only, not from
the source): the sum over the selected items of
round(unitPrice × 100) × quantity, where quantity defaults to the full
receipt-item quantity exactly when the caller omits it (and only then);
none when a lookup fails. -/
def claimDisputedTotalCents (receiptItems : List ReceiptItemRow) :
    List SelectedItem → Option Int
  | [] => some 0
  | sel :: rest =>
    match sel.receipt_item_id with
    | none => none
    | some riid =>
      match receiptItems.find? (fun it => it.id == riid) with
      | none => none
      | some item =>
        let quantity := match sel.quantity with
          | none => item.quantity
          | some v => v
        match claimDisputedTotalCents receiptItems rest with
        | none => none
        | some total => some (jsRound (item.item_price * 100) * quantity + total)

/-- The amended C6 total: as `claimDisputedTotalCents`, but the quantity
falls back to the receipt-item quantity also when the caller supplies 0
(JS falsiness), matching `jsQuantityOr`. -/
def amendedDisputedTotalCents (receiptItems : List ReceiptItemRow) :
    List SelectedItem → Option Int
  | [] => some 0
  | sel :: rest =>
    match sel.receipt_item_id with
    | none => none
    | some riid =>
      match receiptItems.find? (fun it => it.id == riid) with
      | none => none
      | some item =>
        let quantity := jsQuantityOr sel.quantity item.quantity
        match amendedDisputedTotalCents receiptItems rest with
        | none => none
        | some total => some (jsRound (item.item_price * 100) * quantity + total)

/-- The per-row relation of `countersUnchanged`. -/
def sameCounters (r r' : ShareRow) : Prop :=
  r'.view_count = r.view_count ∧ r'.verification_attempts = r.verification_attempts

/-- Both stores have the same share rows position-by-position as far as the
view_count and verification_attempts columns are concerned. -/
def countersUnchanged (a b : Store) : Prop :=
  List.Forall₂ sameCounters a.shares b.shares

/- Concrete rows and stores used by witnesses and counterexamples. -/

/-- A plain active share for receipt 1. -/
def baseShare : ShareRow :=
  { id := 1, receipt_id := 1, token := "t", status := "active", single_use := false,
    expires_at := none, used_at := none, view_count := 0,
    verification_attempts := none, verified_at := none, verified_by := none,
    created_at := 0 }

/-- A plain webhook receipt. -/
def baseReceipt : ReceiptRow :=
  { id := 1, payment_id := "p1", amount := 25, currency := "USD", source := "webhook",
    demo_expired_qr := false, demo_refunded := false, demo_disputed := false,
    refunded := false, confidence_score := none, confidence_label := none }

/-- One active share and its receipt. -/
def stOneShare : Store :=
  { shares := [baseShare], receipts := [baseReceipt], receipt_items := [],
    disputes := [], dispute_items := [] }

/-- A share whose receipt row is missing from the store. -/
def stNoReceipt : Store :=
  { shares := [baseShare], receipts := [], receipt_items := [],
    disputes := [], dispute_items := [] }

/-- A single-use share that also carries an expiry timestamp (10). -/
def stSingleUseExpiring : Store :=
  { shares := [{ baseShare with single_use := true, expires_at := some 10 }],
    receipts := [baseReceipt], receipt_items := [], disputes := [], dispute_items := [] }

/-- A single-use share without expiry. -/
def stSingleUse : Store :=
  { shares := [{ baseShare with single_use := true }],
    receipts := [baseReceipt], receipt_items := [], disputes := [], dispute_items := [] }

/-- A voided share and its receipt. -/
def stVoided : Store :=
  { shares := [{ baseShare with status := "voided" }],
    receipts := [baseReceipt], receipt_items := [], disputes := [], dispute_items := [] }

/-- A receipt with two items: 10.00 x2 and 5.50 x1 (the C6 instance). -/
def stTwoItems : Store :=
  { shares := [], receipts := [baseReceipt],
    receipt_items :=
      [ { id := 1, receipt_id := 1, item_name := "A", item_price := 10, quantity := 2 },
        { id := 2, receipt_id := 1, item_name := "B", item_price := 11/2, quantity := 1 } ],
    disputes := [], dispute_items := [] }

/-- A receipt with one item priced 1.00, quantity 2. -/
def stOneItem : Store :=
  { shares := [], receipts := [baseReceipt],
    receipt_items :=
      [ { id := 1, receipt_id := 1, item_name := "A", item_price := 1, quantity := 2 } ],
    disputes := [], dispute_items := [] }

/-- The empty store. -/
def stEmpty : Store :=
  { shares := [], receipts := [], receipt_items := [], disputes := [], dispute_items := [] }

/- ------------------------------------------------------------------ -/
/- Theorems.                                                           -/
/- ------------------------------------------------------------------ -/

theorem determineVerificationState_some (s : ShareRow) (receipt : Option ReceiptRow)
    (activeDisputes : List DisputeRow) (now : Nat) :
    determineVerificationState (some s) receipt activeDisputes now =
      Except.ok (resolveState s receipt activeDisputes now) := rfl

/-- C1: a share token whose expires_at is set and in the past and whose
status is voided always resolves EXPIRED (never INVALID), for every receipt
and dispute list: the expiry check strictly precedes the voided check in
`determineVerificationState`. -/
theorem expired_voided_share_resolves_EXPIRED
    (s : ShareRow) (receipt : Option ReceiptRow) (activeDisputes : List DisputeRow)
    (now t : Nat) (hexp : s.expires_at = some t) (hpast : t < now)
    (hvoid : s.status = "voided") :
    determineVerificationState (some s) receipt activeDisputes now =
      Except.ok VState.EXPIRED ∧
    determineVerificationState (some s) receipt activeDisputes now ≠
      Except.ok VState.INVALID := by
  have hp : isPastExpiry s.expires_at now = true := by
    simp [isPastExpiry, hexp, hpast]
  constructor
  · simp [determineVerificationState, hp]
  · simp [determineVerificationState, hp]

theorem expired_voided_share_resolves_EXPIRED_witness :
    ({ baseShare with status := "voided", expires_at := some 0 } : ShareRow).expires_at
        = some 0 ∧
      (0 : Nat) < 1 ∧
      determineVerificationState
        (some { baseShare with status := "voided", expires_at := some 0 }) none [] 1 =
        Except.ok VState.EXPIRED :=
  ⟨rfl, by decide,
    (expired_voided_share_resolves_EXPIRED _ none [] 1 0 rfl (by decide) rfl).1⟩

/-- C4: the resolver applied to an absent (null) share does not return
INVALID: the source dereferences `share.expires_at` before its `!share`
guard, so the call throws a TypeError.  This contradicts both the spec
(share absent yields INVALID) and the dead `!share` disjunct the code itself
carries at the voided check. -/
theorem determineVerificationState_null_share_throws
    (receipt : Option ReceiptRow) (activeDisputes : List DisputeRow) (now : Nat) :
    determineVerificationState none receipt activeDisputes now =
      Except.error JsError.typeError := rfl

/-- C8: full characterisation of the confidence gate.  HIGH-label receipts
are always visible; score-less receipts are always visible; visibility fails
exactly when the label is not HIGH, a score is present, and the score is
strictly below the threshold. -/
theorem receiptVisible_characterisation (r : ReceiptRow) (threshold : Int) :
    (r.confidence_label = some "HIGH" → receiptVisible r threshold = true) ∧
    (r.confidence_score = none → receiptVisible r threshold = true) ∧
    (receiptVisible r threshold = false ↔
      r.confidence_label ≠ some "HIGH" ∧
        ∃ sc, r.confidence_score = some sc ∧ sc < threshold) := by
  refine ⟨?_, ?_, ?_⟩
  · intro h
    simp [receiptVisible, receiptBelowThreshold, h]
  · intro h
    cases hl : r.confidence_label == some "HIGH" <;>
      simp [receiptVisible, receiptBelowThreshold, h, hl]
  · constructor
    · intro h
      by_cases hl : r.confidence_label = some "HIGH"
      · simp [receiptVisible, receiptBelowThreshold, hl] at h
      · refine ⟨hl, ?_⟩
        cases hsc : r.confidence_score with
        | none => simp [receiptVisible, receiptBelowThreshold, hl, hsc] at h
        | some sc =>
          refine ⟨sc, rfl, ?_⟩
          by_contra hlt
          simp [receiptVisible, receiptBelowThreshold, hl, hsc] at h
          exact hlt h
    · rintro ⟨hl, sc, hsc, hlt⟩
      simp [receiptVisible, receiptBelowThreshold, hl, hsc, hlt]

theorem receiptVisible_characterisation_witness :
    receiptVisible
      { baseReceipt with confidence_score := some 10,
                         confidence_label := some "HIGH" } 85 = true ∧
    receiptVisible
      { baseReceipt with confidence_score := some 80,
                         confidence_label := some "MEDIUM" } 85 = false ∧
    receiptVisible
      { baseReceipt with confidence_score := none,
                         confidence_label := some "LOW" } 85 = true := by
  refine ⟨(receiptVisible_characterisation _ 85).1 rfl, ?_,
    (receiptVisible_characterisation _ 85).2.1 rfl⟩
  exact ((receiptVisible_characterisation _ 85).2.2).2 ⟨by decide, 80, rfl, by decide⟩

/-- An update keyed on a share id maps every row pointwise. -/
theorem updateShareById_shares (st : Store) (sid : Nat) (f : ShareRow → ShareRow) :
    (updateShareById st sid f).shares =
      st.shares.map (fun s => if s.id == sid then f s else s) := rfl

/-- C3 counterexample: on a store whose share points at a missing receipt,
`getReceiptByToken` returns INVALID and performs no write at all — the view
and attempt counters stay at 0, contradicting the claim that they are
incremented whenever the share token record exists. -/
theorem counters_not_incremented_when_receipt_absent :
    getReceiptByToken 0 "t" stNoReceipt =
      (stNoReceipt, { verification_state := VState.INVALID,
                      reason := some "Receipt not found", share := none }) ∧
    stNoReceipt.shares.map ShareRow.view_count = [0] ∧
    (getReceiptByToken 0 "t" stNoReceipt).1.shares.map ShareRow.view_count = [0] ∧
    (getReceiptByToken 0 "t" stNoReceipt).1.shares.map ShareRow.verification_attempts
      = [none] := by
  refine ⟨?_, rfl, rfl, rfl⟩
  decide

/-- C3 (amended): `getReceiptByToken` increments view_count and
verification_attempts by exactly 1 and persists them, for every resolved
state, whenever the share exists **and** its owning receipt exists; when the
token is unknown, or the share exists but the owning receipt is absent, the
call returns INVALID with the store unchanged (no counter write). -/
theorem counters_increment_requires_receipt (now : Nat) (tok : String) (st : Store) :
    (findShareByToken st tok = none →
      getReceiptByToken now tok st =
        (st, { verification_state := VState.INVALID,
               reason := some "Token not found", share := none })) ∧
    (∀ share, findShareByToken st tok = some share →
      findReceiptById st share.receipt_id = none →
      getReceiptByToken now tok st =
        (st, { verification_state := VState.INVALID,
               reason := some "Receipt not found", share := none })) ∧
    (∀ share r, findShareByToken st tok = some share →
      findReceiptById st share.receipt_id = some r →
      (∃ s', s' ∈ (getReceiptByToken now tok st).1.shares ∧ s'.id = share.id) ∧
      (∀ s', s' ∈ (getReceiptByToken now tok st).1.shares → s'.id = share.id →
        s'.view_count = share.view_count + 1 ∧
        s'.verification_attempts = some (share.verification_attempts.getD 0 + 1))) := by
  refine ⟨?_, ?_, ?_⟩
  · intro h
    simp [getReceiptByToken, h]
  · intro share h1 h2
    simp [getReceiptByToken, h1, h2]
  · intro share r h1 h2
    have hmem : share ∈ st.shares := List.mem_of_find?_eq_some h1
    by_cases hc :
      (resolveState share (some r) (activeDisputesFor st r.id) now == VState.EXPIRED &&
        share.status != "expired") = true
    · simp only [getReceiptByToken, h1, h2, hc, if_true, updateShareById_shares,
        List.map_map]
      constructor
      · exact ⟨_, List.mem_map_of_mem _ hmem, by simp⟩
      · intro s' hs' hid
        obtain ⟨s0, hs0, rfl⟩ := List.mem_map.mp hs'
        simp only [Function.comp_apply] at hid ⊢
        by_cases h0 : (s0.id == share.id) = true
        · simp [h0]
        · rw [Bool.not_eq_true] at h0
          simp only [h0, Bool.false_eq_true, if_false] at hid
          simp [hid] at h0
    · rw [Bool.not_eq_true] at hc
      simp only [getReceiptByToken, h1, h2, hc, Bool.false_eq_true, if_false,
        updateShareById_shares]
      constructor
      · exact ⟨_, List.mem_map_of_mem _ hmem, by simp⟩
      · intro s' hs' hid
        obtain ⟨s0, hs0, rfl⟩ := List.mem_map.mp hs'
        by_cases h0 : (s0.id == share.id) = true
        · simp [h0]
        · rw [Bool.not_eq_true] at h0
          simp only [h0, Bool.false_eq_true, if_false] at hid
          simp [hid] at h0

theorem counters_increment_requires_receipt_witness :
    ∃ s', s' ∈ (getReceiptByToken 3 "t" stVoided).1.shares ∧ s'.id = 1 ∧
      s'.view_count = 1 ∧ s'.verification_attempts = some 1 := by
  have h := (counters_increment_requires_receipt 3 "t" stVoided).2.2
    { baseShare with status := "voided" } baseReceipt (by decide) (by decide)
  obtain ⟨⟨s', hs', hid⟩, hall⟩ := h
  obtain ⟨hv, ha⟩ := hall s' hs' hid
  exact ⟨s', hs', hid, hv, ha⟩

/-- C7: receipt ingestion is idempotent in the external payment id.  From a
store with no receipt for the payment, the first `createReceipt` inserts one
row; the second call hits the uniqueness violation, fetches the winner, and
returns the same store and the same receipt (same id); exactly one matching
row exists afterwards. -/
theorem createReceipt_idempotent (id1 id2 : Nat) (p : PaymentObj) (st : Store)
    (h : ∀ r ∈ st.receipts, r.payment_id ≠ p.id) :
    ∃ st1 r1, createReceipt id1 p st = Except.ok (st1, r1) ∧
      createReceipt id2 p st1 = Except.ok (st1, r1) ∧ r1.id = id1 ∧
      (st1.receipts.filter (fun r => r.payment_id == p.id)).length = 1 := by
  have hany : st.receipts.any (fun r => r.payment_id == p.id) = false := by
    rw [List.any_eq_false]
    intro r hr
    simpa using h r hr
  have hfil : st.receipts.filter (fun r => r.payment_id == p.id) = [] := by
    rw [List.filter_eq_nil_iff]
    intro r hr
    simpa using h r hr
  refine ⟨{ st with receipts := st.receipts ++
      [{ id := id1, payment_id := p.id, amount := jsConvertCentsToDecimal p.amount_cents,
         currency := p.currency.getD "USD", source := "webhook", demo_expired_qr := false,
         demo_refunded := false, demo_disputed := false, refunded := false,
         confidence_score := none, confidence_label := none }] },
    { id := id1, payment_id := p.id, amount := jsConvertCentsToDecimal p.amount_cents,
      currency := p.currency.getD "USD", source := "webhook", demo_expired_qr := false,
      demo_refunded := false, demo_disputed := false, refunded := false,
      confidence_score := none, confidence_label := none }, ?_, ?_, rfl, ?_⟩
  · simp [createReceipt, hany]
  · simp [createReceipt, List.any_append, List.filter_append, hfil]
  · simp [List.filter_append, hfil]

theorem createReceipt_idempotent_witness :
    ∃ st1 r1,
      createReceipt 1 { id := "p1", amount_cents := some 2500, currency := none } stEmpty =
        Except.ok (st1, r1) ∧
      createReceipt 2 { id := "p1", amount_cents := some 2500, currency := none } st1 =
        Except.ok (st1, r1) ∧ r1.id = 1 ∧
      (st1.receipts.filter (fun r => r.payment_id == "p1")).length = 1 :=
  createReceipt_idempotent 1 2 _ stEmpty (by simp [stEmpty])

/-- Mapping a function over a list yields a pointwise-related list. -/
theorem forall₂_map_self {α : Type} (R : α → α → Prop) (f : α → α) (l : List α)
    (h : ∀ a, R a (f a)) : List.Forall₂ R l (l.map f) := by
  induction l with
  | nil => exact List.Forall₂.nil
  | cons x xs ih => exact List.Forall₂.cons (h x) ih

/-- C2 counterexample: a single-use token that also carries a future expiry.
The first `getReceiptByToken` call (at time 5) resolves VALID and consumes
the token (used_at = 5), but the next call made after the expiry (at time
20) resolves EXPIRED — not INVALID as the claim demands of every subsequent
call. -/
theorem singleUse_exhaustion_counterexample :
    (getReceiptByToken 5 "t" stSingleUseExpiring).2.verification_state = VState.VALID ∧
    (getReceiptByToken 5 "t" stSingleUseExpiring).1.shares.map ShareRow.used_at
      = [some 5] ∧
    (getReceiptByToken 20 "t"
        (getReceiptByToken 5 "t" stSingleUseExpiring).1).2.verification_state
      = VState.EXPIRED ∧
    (getReceiptByToken 20 "t"
        (getReceiptByToken 5 "t" stSingleUseExpiring).1).2.verification_state
      ≠ VState.INVALID := by
  refine ⟨by decide, by decide, by decide, by decide⟩

/-- C2 (amended): single-use exhaustion for `getReceiptByToken`.
(1) The first call that resolves VALID on a single-use token with unset
used_at persists used_at = now in the same update as the two counter
increments.  (2) Once used_at is set on a single-use token, a call resolves
INVALID whenever the token is not past its expiry at that call, and
otherwise resolves EXPIRED (so always INVALID or EXPIRED, never VALID).
(3) A call never clears used_at, nor changes token or single_use, so the
exhaustion persists across any sequence of further calls. -/
theorem singleUse_exhaustion (now : Nat) (tok : String) (st : Store) :
    (∀ share r, findShareByToken st tok = some share →
      findReceiptById st share.receipt_id = some r →
      share.single_use = true → share.used_at = none →
      (getReceiptByToken now tok st).2.verification_state = VState.VALID →
      ∀ s' ∈ (getReceiptByToken now tok st).1.shares, s'.id = share.id →
        s'.used_at = some now ∧ s'.view_count = share.view_count + 1 ∧
        s'.verification_attempts = some (share.verification_attempts.getD 0 + 1)) ∧
    (∀ share, findShareByToken st tok = some share →
      share.single_use = true → share.used_at.isSome = true →
      ((getReceiptByToken now tok st).2.verification_state = VState.INVALID ∨
       (getReceiptByToken now tok st).2.verification_state = VState.EXPIRED) ∧
      (isPastExpiry share.expires_at now = false →
       (getReceiptByToken now tok st).2.verification_state = VState.INVALID)) ∧
    List.Forall₂ (fun s s' => s'.token = s.token ∧ s'.single_use = s.single_use ∧
        (s.used_at.isSome = true → s'.used_at.isSome = true))
      st.shares (getReceiptByToken now tok st).1.shares := by
  refine ⟨?_, ?_, ?_⟩
  · intro share r h1 h2 hsu hun hres
    have hv : resolveState share (some r) (activeDisputesFor st r.id) now = VState.VALID := by
      simpa [getReceiptByToken, h1, h2] using hres
    simp only [getReceiptByToken, h1, h2, hv, updateShareById_shares]
    intro s' hs' hid
    simp only [show ((VState.VALID == VState.EXPIRED && share.status != "expired") = false)
      from rfl, Bool.false_eq_true, if_false] at hs'
    obtain ⟨s0, hs0, rfl⟩ := List.mem_map.mp hs'
    by_cases h0 : (s0.id == share.id) = true
    · simp [h0, hsu, hun]
    · rw [Bool.not_eq_true] at h0
      simp only [h0, Bool.false_eq_true, if_false] at hid
      simp [hid] at h0
  · intro share h1 hsu hused
    cases h2 : findReceiptById st share.receipt_id with
    | none =>
      constructor
      · left
        simp [getReceiptByToken, h1, h2]
      · intro _
        simp [getReceiptByToken, h1, h2]
    | some r =>
      have hv : (getReceiptByToken now tok st).2.verification_state =
          resolveState share (some r) (activeDisputesFor st r.id) now := by
        simp [getReceiptByToken, h1, h2]
      by_cases hexp : isPastExpiry share.expires_at now = true
      · constructor
        · right
          rw [hv]
          simp [resolveState, determineVerificationState, hexp]
        · intro hfalse
          exact absurd hexp (by simp [hfalse])
      · rw [Bool.not_eq_true] at hexp
        have hinv : resolveState share (some r) (activeDisputesFor st r.id) now =
            VState.INVALID := by
          simp [resolveState, determineVerificationState, hexp, hsu, hused, ite_self]
        exact ⟨Or.inl (hv.trans hinv), fun _ => hv.trans hinv⟩
  · cases h1 : findShareByToken st tok with
    | none =>
      simp only [getReceiptByToken, h1]
      exact List.forall₂_same.mpr (fun s _ => ⟨rfl, rfl, fun h => h⟩)
    | some share =>
      cases h2 : findReceiptById st share.receipt_id with
      | none =>
        simp only [getReceiptByToken, h1, h2]
        exact List.forall₂_same.mpr (fun s _ => ⟨rfl, rfl, fun h => h⟩)
      | some r =>
        by_cases hc :
          (resolveState share (some r) (activeDisputesFor st r.id) now == VState.EXPIRED &&
            share.status != "expired") = true
        · simp only [getReceiptByToken, h1, h2, hc, if_true, updateShareById_shares,
            List.map_map]
          refine forall₂_map_self _ _ _ (fun s => ?_)
          by_cases h0 : (s.id == share.id) = true
          · refine ⟨by simp [Function.comp, h0], by simp [Function.comp, h0], ?_⟩
            intro hk
            simp only [Function.comp_apply, h0, if_true]
            split <;> simp [h0, hk]
          · exact ⟨by simp [Function.comp, h0], by simp [Function.comp, h0],
              by simp [Function.comp, h0]⟩
        · rw [Bool.not_eq_true] at hc
          simp only [getReceiptByToken, h1, h2, hc, Bool.false_eq_true, if_false,
            updateShareById_shares]
          refine forall₂_map_self _ _ _ (fun s => ?_)
          by_cases h0 : (s.id == share.id) = true
          · refine ⟨by simp [h0], by simp [h0], ?_⟩
            intro hk
            simp only [h0, if_true]
            split <;> simp [hk]
          · exact ⟨by simp [h0], by simp [h0], by simp [h0]⟩

theorem singleUse_exhaustion_witness :
    ({ baseShare with
        single_use := true, used_at := some 5, view_count := 1,
        verification_attempts := some 1 } : ShareRow).used_at = some 5 ∧
    ({ baseShare with
        single_use := true, used_at := some 5, view_count := 1,
        verification_attempts := some 1 } : ShareRow).view_count = 0 + 1 ∧
    ({ baseShare with
        single_use := true, used_at := some 5, view_count := 1,
        verification_attempts := some 1 } : ShareRow).verification_attempts
      = some ((Option.none).getD 0 + 1) := by
  have h := (singleUse_exhaustion 5 "t" stSingleUse).1
    { baseShare with single_use := true } baseReceipt (by decide) (by decide) rfl rfl
    (by decide)
  exact h _ (by decide) rfl

theorem countersUnchanged_refl (st : Store) : countersUnchanged st st :=
  List.forall₂_same.mpr (fun _ _ => ⟨rfl, rfl⟩)

/-- A status-only share update leaves both counters of every row intact. -/
theorem countersUnchanged_status_update (st : Store) (sid : Nat) :
    countersUnchanged st
      (updateShareById st sid (fun s => { s with status := "expired" })) := by
  simp only [countersUnchanged, updateShareById_shares]
  refine forall₂_map_self _ _ _ (fun s => ?_)
  by_cases h0 : (s.id == sid) = true <;> simp [sameCounters, h0]

/-- C10: a `verifyShareToken` call whose result has valid = false leaves
view_count and verification_attempts of every stored share unchanged, and
the only write it may perform at all is the one-time lazy transition of the
fetched token to status expired, which happens exactly when that token is
past its expiry and not yet marked expired. -/
theorem verifyShareToken_invalid_no_counter_writes (now : Nat) (tok : String)
    (merchantId : Option String) (markAsUsed : Bool) (st : Store)
    (h : (verifyShareToken now tok merchantId markAsUsed st).2.valid = false) :
    countersUnchanged st (verifyShareToken now tok merchantId markAsUsed st).1 ∧
    ((verifyShareToken now tok merchantId markAsUsed st).1 = st ∨
      ∃ s, s ∈ st.shares ∧ s.token = tok ∧ isPastExpiry s.expires_at now = true ∧
        s.status ≠ "expired" ∧
        (verifyShareToken now tok merchantId markAsUsed st).1 =
          updateShareById st s.id (fun r => { r with status := "expired" })) := by
  cases h1 : findShareByToken st tok with
  | none =>
    have hq : (verifyShareToken now tok merchantId markAsUsed st).1 = st := by
      simp [verifyShareToken, h1]
    exact ⟨by rw [hq]; exact countersUnchanged_refl st, Or.inl hq⟩
  | some share =>
    by_cases hexp : isPastExpiry share.expires_at now = true
    · by_cases hst : (share.status != "expired") = true
      · have hq : (verifyShareToken now tok merchantId markAsUsed st).1 =
            updateShareById st share.id (fun s => { s with status := "expired" }) := by
          simp [verifyShareToken, h1, hexp, hst]
        refine ⟨by rw [hq]; exact countersUnchanged_status_update st share.id,
          Or.inr ⟨share, List.mem_of_find?_eq_some h1, ?_, hexp, ?_, hq⟩⟩
        · simpa using List.find?_some h1
        · simpa using hst
      · rw [Bool.not_eq_true] at hst
        have hq : (verifyShareToken now tok merchantId markAsUsed st).1 = st := by
          simp [verifyShareToken, h1, hexp, hst]
        exact ⟨by rw [hq]; exact countersUnchanged_refl st, Or.inl hq⟩
    · rw [Bool.not_eq_true] at hexp
      by_cases hvd : (share.status == "voided") = true
      · have hq : (verifyShareToken now tok merchantId markAsUsed st).1 = st := by
          simp [verifyShareToken, h1, hexp, hvd]
        exact ⟨by rw [hq]; exact countersUnchanged_refl st, Or.inl hq⟩
      · rw [Bool.not_eq_true] at hvd
        by_cases hmu : (markAsUsed && share.status == "used") = true
        · have hq : (verifyShareToken now tok merchantId markAsUsed st).1 = st := by
            simp [verifyShareToken, h1, hexp, hvd, hmu]
          exact ⟨by rw [hq]; exact countersUnchanged_refl st, Or.inl hq⟩
        · rw [Bool.not_eq_true] at hmu
          cases h2 : findReceiptById st share.receipt_id with
          | none =>
            have hq : (verifyShareToken now tok merchantId markAsUsed st).1 = st := by
              simp [verifyShareToken, h1, hexp, hvd, hmu, h2]
            exact ⟨by rw [hq]; exact countersUnchanged_refl st, Or.inl hq⟩
          | some r =>
            by_cases hnv :
              (resolveState share (some r) (activeDisputesFor st r.id) now
                != VState.VALID) = true
            · have hq : (verifyShareToken now tok merchantId markAsUsed st).1 = st := by
                simp [verifyShareToken, h1, hexp, hvd, hmu, h2, hnv]
              exact ⟨by rw [hq]; exact countersUnchanged_refl st, Or.inl hq⟩
            · exfalso
              rw [Bool.not_eq_true] at hnv
              have hvalid :
                  (verifyShareToken now tok merchantId markAsUsed st).2.valid = true := by
                simp [verifyShareToken, h1, hexp, hvd, hmu, h2, hnv]
              rw [h] at hvalid
              exact Bool.false_ne_true hvalid

theorem verifyShareToken_invalid_no_counter_writes_witness :
    countersUnchanged stVoided (verifyShareToken 0 "t" none false stVoided).1 ∧
    ((verifyShareToken 0 "t" none false stVoided).1 = stVoided ∨
      ∃ s, s ∈ stVoided.shares ∧ s.token = "t" ∧ isPastExpiry s.expires_at 0 = true ∧
        s.status ≠ "expired" ∧
        (verifyShareToken 0 "t" none false stVoided).1 =
          updateShareById stVoided s.id (fun r => { r with status := "expired" })) :=
  verifyShareToken_invalid_no_counter_writes 0 "t" none false stVoided (by decide)

/-- Every quantity that `processSelectedItems` records is positive, because
the handler rejects a non-positive resolved quantity (the only quantity
validation it performs). -/
theorem processSelectedItems_quantity_pos (items : List ReceiptItemRow) (did : Nat)
    (sels : List SelectedItem) :
    ∀ total acc T V, processSelectedItems items did sels total acc = Except.ok (T, V) →
      (∀ d ∈ acc, 0 < d.quantity) → ∀ d ∈ V, 0 < d.quantity := by
  induction sels with
  | nil =>
    intro total acc T V h hacc
    obtain ⟨rfl, rfl⟩ : total = T ∧ acc = V := by
      simpa [processSelectedItems] using h
    exact hacc
  | cons sel rest ih =>
    intro total acc T V h hacc
    cases hr : sel.receipt_item_id with
    | none => simp [processSelectedItems, hr] at h
    | some riid =>
      simp only [processSelectedItems, hr] at h
      cases hfind : items.find? (fun it => it.id == riid) with
      | none => simp [hfind] at h
      | some item =>
        simp only [hfind] at h
        by_cases hq : jsQuantityOr sel.quantity item.quantity ≤ 0
        · simp [hq] at h
        · rw [if_neg hq] at h
          refine ih _ _ _ _ h ?_
          intro d hd
          rcases List.mem_append.mp hd with hd | hd
          · exact hacc d hd
          · simp only [List.mem_singleton] at hd
            subst hd
            simp only []
            omega

/-- The total accumulated by `processSelectedItems` is the amended claim
formula: the sum of round(price × 100) × quantity over the selected items,
with the quantity defaulting to the receipt quantity when omitted or zero. -/
theorem processSelectedItems_total_amended (items : List ReceiptItemRow) (did : Nat)
    (sels : List SelectedItem) :
    ∀ total acc T V, processSelectedItems items did sels total acc = Except.ok (T, V) →
      ∃ S, amendedDisputedTotalCents items sels = some S ∧ T = total + S := by
  induction sels with
  | nil =>
    intro total acc T V h
    obtain ⟨rfl, rfl⟩ : total = T ∧ acc = V := by
      simpa [processSelectedItems] using h
    exact ⟨0, rfl, (add_zero total).symm⟩
  | cons sel rest ih =>
    intro total acc T V h
    cases hr : sel.receipt_item_id with
    | none => simp [processSelectedItems, hr] at h
    | some riid =>
      simp only [processSelectedItems, hr] at h
      cases hfind : items.find? (fun it => it.id == riid) with
      | none => simp [hfind] at h
      | some item =>
        simp only [hfind] at h
        by_cases hq : jsQuantityOr sel.quantity item.quantity ≤ 0
        · simp [hq] at h
        · rw [if_neg hq] at h
          obtain ⟨S, hS, hT⟩ := ih _ _ _ _ h
          refine ⟨jsRound (item.item_price * 100) * jsQuantityOr sel.quantity item.quantity
              + S, ?_, ?_⟩
          · simp only [amendedDisputedTotalCents, hr, hfind, hS]
          · rw [hT]; ring

/-- Math.round of the cent value 100 (price 1.00). -/
theorem jsRound_100 : jsRound (100 : Rat) = 100 := by
  unfold jsRound
  rw [Int.floor_eq_iff]
  norm_num

/-- Math.round of the cent value 1000 (price 10.00). -/
theorem jsRound_1000 : jsRound (1000 : Rat) = 1000 := by
  unfold jsRound
  rw [Int.floor_eq_iff]
  norm_num

/-- Math.round of the cent value 550 (price 5.50). -/
theorem jsRound_550 : jsRound (550 : Rat) = 550 := by
  unfold jsRound
  rw [Int.floor_eq_iff]
  norm_num

/-- Evaluation of the selected-items loop: one item priced 1.00 (quantity 2)
selected with caller quantity 5. -/
theorem processSelectedItems_oneItem_q5 :
    processSelectedItems
      [{ id := 1, receipt_id := 1, item_name := "A", item_price := 1, quantity := 2 }] 1
      [({ receipt_item_id := some 1, quantity := some 5 } : SelectedItem)] 0 []
      = Except.ok (500,
        [{ dispute_id := 1, receipt_item_id := 1, quantity := 5, amount_cents := 500 }]) := by
  norm_num [processSelectedItems, List.find?, jsQuantityOr, jsRound_100]

/-- Evaluation of the selected-items loop: one item priced 1.00 (quantity 2)
selected with caller quantity 0, which JS falsiness turns into the full
receipt quantity 2. -/
theorem processSelectedItems_oneItem_q0 :
    processSelectedItems
      [{ id := 1, receipt_id := 1, item_name := "A", item_price := 1, quantity := 2 }] 1
      [({ receipt_item_id := some 1, quantity := some 0 } : SelectedItem)] 0 []
      = Except.ok (200,
        [{ dispute_id := 1, receipt_item_id := 1, quantity := 2, amount_cents := 200 }]) := by
  norm_num [processSelectedItems, List.find?, jsQuantityOr, jsRound_100]

/-- Evaluation of the selected-items loop: items priced 10.00 (quantity 2)
and 5.50 (quantity 1), both selected with omitted quantity. -/
theorem processSelectedItems_twoItems :
    processSelectedItems
      [{ id := 1, receipt_id := 1, item_name := "A", item_price := 10, quantity := 2 },
       { id := 2, receipt_id := 1, item_name := "B", item_price := 11/2, quantity := 1 }] 1
      [({ receipt_item_id := some 1, quantity := none } : SelectedItem),
       ({ receipt_item_id := some 2, quantity := none } : SelectedItem)] 0 []
      = Except.ok (2550,
        [{ dispute_id := 1, receipt_item_id := 1, quantity := 2, amount_cents := 2000 },
         { dispute_id := 1, receipt_item_id := 2, quantity := 1, amount_cents := 550 }]) := by
  norm_num [processSelectedItems, List.find?, jsQuantityOr, jsRound_1000, jsRound_550,
    show ((1 : Nat) == (2 : Nat)) = false from rfl,
    show ((2 : Nat) == (2 : Nat)) = true from rfl]

/-- Evaluation of `createDispute` on the quantity-5 submission against the
one-item (quantity 2) receipt. -/
theorem createDispute_oneItem_q5_eval :
    createDispute 1 1 [({ receipt_item_id := some 1, quantity := some 5 } : SelectedItem)]
      "r" none stOneItem =
    ({ stOneItem with
        disputes := [{ id := 1, receipt_id := 1, status := "submitted",
                       reason_code := "r", notes := none, total_amount_cents := some 500 }],
        dispute_items := [{ dispute_id := 1, receipt_item_id := 1, quantity := 5,
                            amount_cents := 500 }] },
     Except.ok (1, "submitted")) := by
  simp [createDispute, stOneItem, baseReceipt, List.find?, processSelectedItems_oneItem_q5]

/-- Evaluation of `createDispute` on the quantity-0 submission against the
one-item (quantity 2, price 1.00) receipt. -/
theorem createDispute_oneItem_q0_eval :
    createDispute 1 1 [({ receipt_item_id := some 1, quantity := some 0 } : SelectedItem)]
      "r" none stOneItem =
    ({ stOneItem with
        disputes := [{ id := 1, receipt_id := 1, status := "submitted",
                       reason_code := "r", notes := none, total_amount_cents := some 200 }],
        dispute_items := [{ dispute_id := 1, receipt_item_id := 1, quantity := 2,
                            amount_cents := 200 }] },
     Except.ok (1, "submitted")) := by
  simp [createDispute, stOneItem, baseReceipt, List.find?, processSelectedItems_oneItem_q0]

/-- Evaluation of `createDispute` on the full two-item submission of the C6
instance (10.00 × 2 and 5.50 × 1). -/
theorem createDispute_twoItems_eval :
    createDispute 1 1
      [({ receipt_item_id := some 1, quantity := none } : SelectedItem),
       ({ receipt_item_id := some 2, quantity := none } : SelectedItem)]
      "r" none stTwoItems =
    ({ stTwoItems with
        disputes := [{ id := 1, receipt_id := 1, status := "submitted",
                       reason_code := "r", notes := none,
                       total_amount_cents := some 2550 }],
        dispute_items := [{ dispute_id := 1, receipt_item_id := 1, quantity := 2,
                            amount_cents := 2000 },
                          { dispute_id := 1, receipt_item_id := 2, quantity := 1,
                            amount_cents := 550 }] },
     Except.ok (1, "submitted")) := by
  simp [createDispute, stTwoItems, baseReceipt, List.find?, processSelectedItems_twoItems]

/-- C5 counterexample: the dispute handler accepts a caller-supplied quantity
of 5 against a receipt item whose quantity is 2, and records it verbatim —
no check bounds the disputed quantity by the receipt quantity. -/
theorem dispute_quantity_exceeds_receipt_accepted :
    (createDispute 1 1 [({ receipt_item_id := some 1, quantity := some 5 } :
        SelectedItem)] "r" none stOneItem).2 = Except.ok (1, "submitted") ∧
    (createDispute 1 1 [({ receipt_item_id := some 1, quantity := some 5 } :
        SelectedItem)] "r" none stOneItem).1.dispute_items =
      [{ dispute_id := 1, receipt_item_id := 1, quantity := 5, amount_cents := 500 }] ∧
    stOneItem.receipt_items.map ReceiptItemRow.quantity = [2] ∧ (2 : Int) < 5 := by
  rw [createDispute_oneItem_q5_eval]
  exact ⟨rfl, rfl, rfl, by decide⟩

/-- C5 (amended): the only quantity validation `createDispute` performs is
positivity.  Every dispute item persisted by an accepted submission has a
strictly positive quantity; the caller-supplied quantity is not bounded by
the receipt quantity. -/
theorem dispute_item_quantity_positive (newDisputeId receiptId : Nat)
    (sels : List SelectedItem) (reasonCode : String) (notes : Option String)
    (st st' : Store) (res : Nat × String)
    (h : createDispute newDisputeId receiptId sels reasonCode notes st =
      (st', Except.ok res)) :
    ∃ V, st'.dispute_items = st.dispute_items ++ V ∧ ∀ d ∈ V, 0 < d.quantity := by
  unfold createDispute at h
  by_cases hempty : sels.isEmpty = true
  · simp [hempty] at h
  · rw [Bool.not_eq_true] at hempty
    simp only [hempty, Bool.false_eq_true, if_false] at h
    cases hf : st.receipts.find? (fun r => r.id == receiptId) with
    | none => simp [hf] at h
    | some r0 =>
      simp only [hf] at h
      cases hp : processSelectedItems
          (st.receipt_items.filter (fun it => it.receipt_id == receiptId))
          newDisputeId sels 0 [] with
      | error e => simp [hp] at h
      | ok tv =>
        obtain ⟨T, V⟩ := tv
        simp only [hp, Prod.mk.injEq] at h
        obtain ⟨hst, -⟩ := h
        refine ⟨V, by rw [← hst], ?_⟩
        exact processSelectedItems_quantity_pos _ _ _ _ _ _ _ hp (by simp)

theorem dispute_item_quantity_positive_witness :
    ∃ V, (createDispute 1 1
        [({ receipt_item_id := some 1, quantity := some 5 } : SelectedItem)]
        "r" none stOneItem).1.dispute_items = stOneItem.dispute_items ++ V ∧
      ∀ d ∈ V, 0 < d.quantity :=
  dispute_item_quantity_positive 1 1
    [({ receipt_item_id := some 1, quantity := some 5 } : SelectedItem)]
    "r" none stOneItem _ (1, "submitted")
    (by rw [createDispute_oneItem_q5_eval])

/-- C6 counterexample: the claim formula reads a caller-supplied quantity of
0 literally, but JS falsiness makes the handler fall back to the full
receipt quantity: for one item priced 1.00 with receipt quantity 2 and
caller quantity 0, the accepted dispute records a total of 200 cents while
the claim formula yields 0. -/
theorem disputed_total_zero_quantity_counterexample :
    (createDispute 1 1 [({ receipt_item_id := some 1, quantity := some 0 } :
        SelectedItem)] "r" none stOneItem).2 = Except.ok (1, "submitted") ∧
    (createDispute 1 1 [({ receipt_item_id := some 1, quantity := some 0 } :
        SelectedItem)] "r" none stOneItem).1.disputes.map DisputeRow.total_amount_cents
      = [some 200] ∧
    claimDisputedTotalCents stOneItem.receipt_items
      [({ receipt_item_id := some 1, quantity := some 0 } : SelectedItem)] = some 0 ∧
    (200 : Int) ≠ 0 := by
  rw [createDispute_oneItem_q0_eval]
  refine ⟨rfl, rfl, ?_, by decide⟩
  norm_num [claimDisputedTotalCents, stOneItem, List.find?, jsRound_100]

/-- C6 (amended): for every accepted dispute submission, the persisted
disputedTotalCents equals the sum over the selected items of
round(unitPrice × 100) × quantity, where the quantity defaults to the full
receipt-item quantity when omitted — or when supplied as 0 (JS falsiness);
the claimed instance (10.00 × 2 plus 5.50 × 1 giving 2550) holds, as the
witness instantiates. -/
theorem disputed_total_formula (newDisputeId receiptId : Nat)
    (sels : List SelectedItem) (reasonCode : String) (notes : Option String)
    (st st' : Store) (res : Nat × String)
    (h : createDispute newDisputeId receiptId sels reasonCode notes st =
      (st', Except.ok res)) :
    ∃ T, st'.disputes = st.disputes ++
        [{ id := newDisputeId, receipt_id := receiptId, status := "submitted",
           reason_code := reasonCode, notes := notes, total_amount_cents := some T }] ∧
      amendedDisputedTotalCents
        (st.receipt_items.filter (fun it => it.receipt_id == receiptId)) sels
        = some T := by
  unfold createDispute at h
  by_cases hempty : sels.isEmpty = true
  · simp [hempty] at h
  · rw [Bool.not_eq_true] at hempty
    simp only [hempty, Bool.false_eq_true, if_false] at h
    cases hf : st.receipts.find? (fun r => r.id == receiptId) with
    | none => simp [hf] at h
    | some r0 =>
      simp only [hf] at h
      cases hp : processSelectedItems
          (st.receipt_items.filter (fun it => it.receipt_id == receiptId))
          newDisputeId sels 0 [] with
      | error e => simp [hp] at h
      | ok tv =>
        obtain ⟨T, V⟩ := tv
        simp only [hp, Prod.mk.injEq] at h
        obtain ⟨hst, -⟩ := h
        obtain ⟨S, hS, hT⟩ := processSelectedItems_total_amended _ _ _ _ _ _ _ hp
        refine ⟨T, by rw [← hst], ?_⟩
        rw [hS, hT, zero_add]

theorem disputed_total_formula_witness :
    ∃ T, (createDispute 1 1
        [({ receipt_item_id := some 1, quantity := none } : SelectedItem),
         ({ receipt_item_id := some 2, quantity := none } : SelectedItem)]
        "r" none stTwoItems).1.disputes = stTwoItems.disputes ++
        [{ id := 1, receipt_id := 1, status := "submitted", reason_code := "r",
           notes := none, total_amount_cents := some T }] ∧
      amendedDisputedTotalCents
        (stTwoItems.receipt_items.filter (fun it => it.receipt_id == 1))
        [({ receipt_item_id := some 1, quantity := none } : SelectedItem),
         ({ receipt_item_id := some 2, quantity := none } : SelectedItem)] = some T :=
  disputed_total_formula 1 1
    [({ receipt_item_id := some 1, quantity := none } : SelectedItem),
     ({ receipt_item_id := some 2, quantity := none } : SelectedItem)]
    "r" none stTwoItems _ (1, "submitted")
    (by rw [createDispute_twoItems_eval])

/-- A row produced by the descending-created_at fold comes from the list (or
was the starting accumulator). -/
theorem foldl_pickLatest_mem (l : List ShareRow) :
    ∀ acc b, l.foldl pickLatest acc = some b → b ∈ l ∨ acc = some b := by
  induction l with
  | nil => intro acc b h; exact Or.inr h
  | cons x xs ih =>
    intro acc b h
    rcases ih _ _ h with hb | hb
    · exact Or.inl (List.mem_cons_of_mem _ hb)
    · cases acc with
      | none =>
        obtain rfl : x = b := by simpa [pickLatest] using hb
        exact Or.inl (List.mem_cons_self x xs)
      | some a =>
        simp only [pickLatest] at hb
        by_cases hlt : a.created_at < x.created_at
        · rw [if_pos hlt] at hb
          obtain rfl : x = b := by simpa using hb
          exact Or.inl (List.mem_cons_self x xs)
        · rw [if_neg hlt] at hb
          exact Or.inr hb

/-- The fold never decreases the created_at of the accumulator. -/
theorem foldl_pickLatest_acc_le (l : List ShareRow) :
    ∀ a b, l.foldl pickLatest (some a) = some b → a.created_at ≤ b.created_at := by
  induction l with
  | nil =>
    intro a b h
    simp only [List.foldl_nil] at h
    obtain rfl : a = b := by simpa using h
    exact le_refl _
  | cons x xs ih =>
    intro a b h
    simp only [List.foldl_cons, pickLatest] at h
    by_cases hlt : a.created_at < x.created_at
    · rw [if_pos hlt] at h
      exact le_trans (le_of_lt hlt) (ih x b h)
    · rw [if_neg hlt] at h
      exact ih a b h

/-- The fold result has the maximal created_at of the list. -/
theorem foldl_pickLatest_le (l : List ShareRow) :
    ∀ acc b x, l.foldl pickLatest acc = some b → x ∈ l →
      x.created_at ≤ b.created_at := by
  induction l with
  | nil => intro acc b x _ hx; cases hx
  | cons y ys ih =>
    intro acc b x h hx
    simp only [List.foldl_cons] at h
    rcases List.mem_cons.mp hx with rfl | hx
    · cases acc with
      | none => exact foldl_pickLatest_acc_le ys x b h
      | some a =>
        simp only [pickLatest] at h
        by_cases hlt : a.created_at < x.created_at
        · rw [if_pos hlt] at h
          exact foldl_pickLatest_acc_le ys x b h
        · rw [if_neg hlt] at h
          exact le_trans (le_of_not_lt hlt) (foldl_pickLatest_acc_le ys a b h)
    · exact ih _ _ _ h hx

/-- Filtering commutes with a row map that preserves the filter predicate. -/
theorem filter_map_comm (f : ShareRow → ShareRow) (p : ShareRow → Bool)
    (hp : ∀ r, p (f r) = p r) (l : List ShareRow) :
    (l.map f).filter p = (l.filter p).map f := by
  induction l with
  | nil => rfl
  | cons x xs ih =>
    cases hx : p x <;> simp [List.filter_cons, hp, hx, ih]

/-- The descending-created_at fold commutes with a row map preserving
created_at. -/
theorem foldl_pickLatest_map (f : ShareRow → ShareRow)
    (hca : ∀ r, (f r).created_at = r.created_at) (l : List ShareRow) :
    ∀ acc, (l.map f).foldl pickLatest (acc.map f) = (l.foldl pickLatest acc).map f := by
  induction l with
  | nil => intro acc; rfl
  | cons x xs ih =>
    intro acc
    simp only [List.map_cons, List.foldl_cons]
    have hstep : pickLatest (acc.map f) (f x) = (pickLatest acc x).map f := by
      cases acc with
      | none => rfl
      | some a =>
        by_cases hlt : a.created_at < x.created_at <;> simp [pickLatest, hca, hlt]
    rw [hstep, ih]

/-- The reuse query commutes with a row map preserving the queried columns. -/
theorem latestNonExpiringL_map (f : ShareRow → ShareRow)
    (hrid : ∀ r, (f r).receipt_id = r.receipt_id)
    (hexp : ∀ r, (f r).expires_at = r.expires_at)
    (hca : ∀ r, (f r).created_at = r.created_at)
    (l : List ShareRow) (rid : Nat) :
    latestNonExpiringL (l.map f) rid = (latestNonExpiringL l rid).map f := by
  unfold latestNonExpiringL
  rw [filter_map_comm f _ (fun r => by simp [hrid, hexp]) l]
  simpa using foldl_pickLatest_map f hca
    (l.filter (fun s => s.receipt_id == rid && s.expires_at.isNone)) none

/-- What the reuse query returns: a stored share of the receipt with a null
expires_at whose created_at is maximal among such shares. -/
theorem latestNonExpiringL_spec (l : List ShareRow) (rid : Nat) (s : ShareRow)
    (h : latestNonExpiringL l rid = some s) :
    s ∈ l ∧ s.receipt_id = rid ∧ s.expires_at = none ∧
      ∀ x ∈ l, x.receipt_id = rid → x.expires_at = none →
        x.created_at ≤ s.created_at := by
  unfold latestNonExpiringL at h
  have hmem : s ∈ l.filter (fun r => r.receipt_id == rid && r.expires_at.isNone) := by
    rcases foldl_pickLatest_mem _ _ _ h with hm | hm
    · exact hm
    · simp at hm
  obtain ⟨hsl, hpred⟩ := List.mem_filter.mp hmem
  simp only [Bool.and_eq_true, beq_iff_eq, Option.isNone_iff_eq_none] at hpred
  refine ⟨hsl, hpred.1, hpred.2, ?_⟩
  intro x hx hxr hxe
  exact foldl_pickLatest_le _ _ _ _ h
    (List.mem_filter.mpr ⟨hx, by simp [hxr, hxe]⟩)

/-- C9: `createOrGetShareToken` reuses the most recently created stored token
with a null expires_at regardless of that token's status.  Part one
characterises the reuse lookup; part two shows the token is returned
unchanged with the store untouched; parts three and four show that after
`voidShareToken` the same (now voided) token is still returned unchanged
instead of a new active token being created. -/
theorem createOrGetShareToken_reuses_latest (now newId : Nat) (baseUrl : String)
    (candidates : List String) (qrSingleUseDefault : Bool) (rid : Nat)
    (expiresAt : Option Nat) (singleUse : Option Bool) (st : Store) (s : ShareRow)
    (h : latestNonExpiring st rid = some s) :
    (s ∈ st.shares ∧ s.receipt_id = rid ∧ s.expires_at = none ∧
      ∀ x ∈ st.shares, x.receipt_id = rid → x.expires_at = none →
        x.created_at ≤ s.created_at) ∧
    createOrGetShareToken now newId baseUrl candidates qrSingleUseDefault rid
        expiresAt singleUse st =
      Except.ok (st,
        { id := s.id, token := s.token, verifyUrl := getVerifyUrl baseUrl s.token,
          created_at := s.created_at, expires_at := s.expires_at }) ∧
    createOrGetShareToken now newId baseUrl candidates qrSingleUseDefault rid
        expiresAt singleUse (voidShareToken s.token st).1 =
      Except.ok ((voidShareToken s.token st).1,
        { id := s.id, token := s.token, verifyUrl := getVerifyUrl baseUrl s.token,
          created_at := s.created_at, expires_at := s.expires_at }) ∧
    ∀ x ∈ (voidShareToken s.token st).1.shares, x.token = s.token →
      x.status = "voided" := by
  have hv : latestNonExpiring (voidShareToken s.token st).1 rid =
      some { s with status := "voided" } := by
    have hcomm := latestNonExpiringL_map
      (fun r => if r.token == s.token then { r with status := "voided" } else r)
      (fun r => by by_cases hh : (r.token == s.token) = true <;> simp [hh])
      (fun r => by by_cases hh : (r.token == s.token) = true <;> simp [hh])
      (fun r => by by_cases hh : (r.token == s.token) = true <;> simp [hh])
      st.shares rid
    rw [show latestNonExpiring (voidShareToken s.token st).1 rid =
        latestNonExpiringL (st.shares.map (fun r =>
          if r.token == s.token then { r with status := "voided" } else r)) rid
        from rfl, hcomm, show latestNonExpiringL st.shares rid =
        latestNonExpiring st rid from rfl, h]
    simp
  refine ⟨latestNonExpiringL_spec _ _ _ h, ?_, ?_, ?_⟩
  · simp [createOrGetShareToken, h]
  · simp [createOrGetShareToken, hv]
  · intro x hx hxt
    obtain ⟨x0, hx0, rfl⟩ := List.mem_map.mp hx
    by_cases hh : (x0.token == s.token) = true
    · simp [hh]
    · rw [Bool.not_eq_true] at hh
      simp only [hh, Bool.false_eq_true, if_false] at hxt
      simp [hxt] at hh

theorem createOrGetShareToken_reuses_latest_witness :
    (baseShare ∈ stOneShare.shares ∧ baseShare.receipt_id = 1 ∧
      baseShare.expires_at = none ∧
      ∀ x ∈ stOneShare.shares, x.receipt_id = 1 → x.expires_at = none →
        x.created_at ≤ baseShare.created_at) ∧
    createOrGetShareToken 7 9 "http://x" ["a"] false 1 none none stOneShare =
      Except.ok (stOneShare,
        { id := baseShare.id, token := baseShare.token,
          verifyUrl := getVerifyUrl "http://x" baseShare.token,
          created_at := baseShare.created_at, expires_at := baseShare.expires_at }) ∧
    createOrGetShareToken 7 9 "http://x" ["a"] false 1 none none
        (voidShareToken baseShare.token stOneShare).1 =
      Except.ok ((voidShareToken baseShare.token stOneShare).1,
        { id := baseShare.id, token := baseShare.token,
          verifyUrl := getVerifyUrl "http://x" baseShare.token,
          created_at := baseShare.created_at, expires_at := baseShare.expires_at }) ∧
    ∀ x ∈ (voidShareToken baseShare.token stOneShare).1.shares,
      x.token = baseShare.token → x.status = "voided" :=
  createOrGetShareToken_reuses_latest 7 9 "http://x" ["a"] false 1 none none
    stOneShare baseShare (by decide)
